import Mathlib

/-!
Verification development for the `robot-face` messaging bridge
(`src/main.rs`, `src/messaging.rs`, `src/noise_plugin.rs`, `src/display.rs`).

The development shallowly embeds:
* the JSON payloads and the serde-derived decoding of
  `NoiseGeneratorSettingsUpdate` and `DisplayControlMessage`;
* the per-tick merge system `process_noise_generator_update_messages`;
* the bounded tokio mpsc channel of capacity 10 created in
  `start_zenoh_worker`;
* one iteration of `run_zenoh_loop` (session open, the two subscriber
  declarations, the spawned display task, and the settings receive loop)
  and the enclosing restart loop of `start_zenoh_worker`.

Floating-point settings values (`f64`/`f32`) are modelled as rationals:
the bridge only copies these values around and never computes with them,
so only their identity matters.
-/

namespace RobotFace

/-! ### JSON model

`serde_json` keeps JSON numbers in distinct lexical classes: a number
written as an integer is stored as `i64`/`u64`, a number with a fraction
or exponent as `f64`.  Deserializing a `usize` field succeeds only from
the integer class, so the model records the class. -/

/-- A JSON number as `serde_json` stores it: `int` for a lexically
integral literal, `float` for one with a fraction or exponent. -/
inductive JsonNum
  | int (n : ℤ)
  | float (q : ℚ)
deriving DecidableEq, Repr

/-- JSON values (documents on the `face/settings` and `face/display`
topics are objects; the other forms appear as field values). -/
inductive Json
  | null
  | bool (b : Bool)
  | num (n : JsonNum)
  | str (s : String)
  | arr (elems : List Json)
  | obj (fields : List (String × Json))

/-- First value bound to `key` in an object's field list (the occurrence
serde's map visitor reaches first). -/
def lookupField (fields : List (String × Json)) (key : String) : Option Json :=
  match fields with
  | [] => none
  | (k, v) :: rest => if k = key then some v else lookupField rest key

/-- Number of occurrences of `key` among an object's keys; serde's derived
deserializer rejects a known field that occurs more than once. -/
def keyCount (fields : List (String × Json)) (key : String) : ℕ :=
  match fields with
  | [] => 0
  | (k, _) :: rest => (if k = key then 1 else 0) + keyCount rest key

/-! ### Settings-update decoding

`NoiseGeneratorSettingsUpdate` (src/main.rs:301-313, identical in
src/noise_plugin.rs:170-182) is

a derived `serde::Deserialize` struct whose five fields are all
`Option` types under `serde(default)`: `width_divider: Option<f64>`,
`height_multiplier: Option<f64>`, `segment_width: Option<f32>`,
`frame_time_divider: Option<f64>`, `perlin_noise_octaves: Option<usize>`.
-/

/-- The decoded partial settings update: five independently optional
fields, mirroring `NoiseGeneratorSettingsUpdate`. -/
structure NoiseGeneratorSettingsUpdate where
  width_divider : Option ℚ
  height_multiplier : Option ℚ
  segment_width : Option ℚ
  frame_time_divider : Option ℚ
  perlin_noise_octaves : Option ℕ
deriving DecidableEq, Repr

/-- Deserializing an `f64` (or `f32`) from a JSON value: any JSON number
is accepted, nothing else is. -/
def decodeF64Json : Json → Option ℚ
  | Json.num (JsonNum.int n) => some (n : ℚ)
  | Json.num (JsonNum.float q) => some q
  | _ => none

/-- Deserializing a `usize` from a JSON value: only a lexically integral,
non-negative JSON number is accepted (serde_json stores `2.5` or `-1`
outside the `u64` class, so `Option<usize>` rejects them). -/
def decodeUsizeJson : Json → Option ℕ
  | Json.num (JsonNum.int n) => if 0 ≤ n then some n.toNat else none
  | _ => none

/-- Decoding an `Option<f64>` field value: JSON `null` gives `None`,
a number gives `Some`, anything else is an error (outer `none`). -/
def decodeOptNumField (fields : List (String × Json)) (key : String) :
    Option (Option ℚ) :=
  match lookupField fields key with
  | none => some none
  | some Json.null => some none
  | some v => (decodeF64Json v).map some

/-- Decoding the `Option<usize>` field value, as `decodeOptNumField` but
through `decodeUsizeJson`. -/
def decodeOptUsizeField (fields : List (String × Json)) (key : String) :
    Option (Option ℕ) :=
  match lookupField fields key with
  | none => some none
  | some Json.null => some none
  | some v => (decodeUsizeJson v).map some

/-- The five field names `NoiseGeneratorSettingsUpdate` knows. -/
def knownKeys : List String :=
  ["width_divider", "height_multiplier", "segment_width",
   "frame_time_divider", "perlin_noise_octaves"]

/-- Modelled from the spec: the serde-derived `Deserialize` impl for
`NoiseGeneratorSettingsUpdate` (the derive itself is generated code, not
in the repository).  The payload must be a JSON object; a known field
occurring twice is a `duplicate field` error; every `#[serde(default)]
Option` field is `None` when absent or `null` and decoded through its
value type when present; unknown keys are ignored. -/
def NoiseGeneratorSettingsUpdate.decode (j : Json) :
    Option NoiseGeneratorSettingsUpdate :=
  match j with
  | Json.obj fields =>
    if knownKeys.any (fun k => 1 < keyCount fields k) then none
    else
      match decodeOptNumField fields "width_divider",
            decodeOptNumField fields "height_multiplier",
            decodeOptNumField fields "segment_width",
            decodeOptNumField fields "frame_time_divider",
            decodeOptUsizeField fields "perlin_noise_octaves" with
      | some wd, some hm, some sw, some fd, some po =>
        some ⟨wd, hm, sw, fd, po⟩
      | _, _, _, _, _ => none
  | _ => none

/-! ### Display-command decoding

`DisplayControlMessage` (src/display.rs:3-7, duplicated at
src/main.rs:431-435):

a derived `serde::Deserialize` struct with the single field
`display_on: bool` under `serde(default)`.
-/

/-- The decoded display command: a single boolean, defaulting to `false`
when the payload omits it. -/
structure DisplayControlMessage where
  display_on : Bool
deriving DecidableEq, Repr

/-- Deserializing a `bool`: only JSON `true`/`false` are accepted. -/
def decodeBoolJson : Json → Option Bool
  | Json.bool b => some b
  | _ => none

/-- Modelled from the spec: the serde-derived `Deserialize` impl for
`DisplayControlMessage` (generated code, not in the repository).  The
payload must be a JSON object; `display_on` defaults to `false` when
absent, must be a JSON boolean when present, and may occur at most once;
unknown keys are ignored. -/
def DisplayControlMessage.decode (j : Json) : Option DisplayControlMessage :=
  match j with
  | Json.obj fields =>
    if 1 < keyCount fields "display_on" then none
    else
      match lookupField fields "display_on" with
      | none => some ⟨false⟩
      | some v => (decodeBoolJson v).map (fun b => ⟨b⟩)
  | _ => none

/-! ### Live settings and the merge system -/

/-- `NoiseGeneratorSettings` (src/main.rs:31-37): the live settings record.
It holds four fields; the Perlin octave count is *not* stored here but
inside the noise generator's engine. -/
structure NoiseGeneratorSettings where
  width_divider : ℚ
  height_multiplier : ℚ
  segment_width : ℚ
  frame_time_divider : ℚ
deriving DecidableEq, Repr

/-- `impl Default for NoiseGeneratorSettings` (src/main.rs:39-48) with the
constants of src/main.rs:22-25. -/
def NoiseGeneratorSettings.default : NoiseGeneratorSettings :=
  { width_divider := 60
    height_multiplier := 400
    segment_width := 5
    frame_time_divider := 8 }

/-- Modelled from the spec: the `NoiseEngine` collaborator
(`BasicMulti<Perlin>` of the external `noise` crate), reduced to the
configuration the bridge touches — its seed and its octave count. -/
structure BasicMultiPerlin where
  seed : ℕ
  octaves : ℕ
deriving DecidableEq, Repr

/-- Modelled from the spec: `NoiseEngine.setOctaves(n)` — the collaborator
call `BasicMulti::set_octaves`, which reconfigures the engine's octave
count. -/
def BasicMultiPerlin.set_octaves (g : BasicMultiPerlin) (n : ℕ) :
    BasicMultiPerlin :=
  { g with octaves := n }

/-- `NoiseGenerator` (src/main.rs:231-236): the engine plus the
`elapsed_step` accumulator kept to maintain animation continuity. -/
structure NoiseGenerator where
  generator : BasicMultiPerlin
  elapsed_step : ℚ
deriving DecidableEq, Repr

/-- The state `process_noise_generator_update_messages` may touch, plus a
log of the `set_octaves` invocations it performs (the log is ghost state
recording collaborator calls; the system itself never reads it). -/
structure MergeState where
  settings : NoiseGeneratorSettings
  generator : NoiseGenerator
  setOctavesCalls : List ℕ
deriving DecidableEq, Repr

/-- The body of the drain loop of
`process_noise_generator_update_messages` (src/main.rs:397-422): each
populated field of the message overwrites the matching settings field;
a populated `perlin_noise_octaves` instead replaces the generator's
engine by `set_octaves`. -/
def applyUpdateMessage (st : MergeState) (message : NoiseGeneratorSettingsUpdate) :
    MergeState :=
  let st :=
    match message.width_divider with
    | some width_divider =>
      { st with settings := { st.settings with width_divider := width_divider } }
    | none => st
  let st :=
    match message.height_multiplier with
    | some height_multiplier =>
      { st with settings := { st.settings with height_multiplier := height_multiplier } }
    | none => st
  let st :=
    match message.segment_width with
    | some segment_width =>
      { st with settings := { st.settings with segment_width := segment_width } }
    | none => st
  let st :=
    match message.frame_time_divider with
    | some frame_time_divider =>
      { st with settings := { st.settings with frame_time_divider := frame_time_divider } }
    | none => st
  match message.perlin_noise_octaves with
  | some perlin_noise_octaves =>
    { st with
      generator :=
        { st.generator with
          generator := st.generator.generator.set_octaves perlin_noise_octaves }
      setOctavesCalls := st.setOctavesCalls ++ [perlin_noise_octaves] }
  | none => st

/-- `process_noise_generator_update_messages` (src/main.rs:392-423):
the `while let Ok(message) = receiver.try_recv()` loop applies every
message drained this tick, in arrival order. -/
def process_noise_generator_update_messages
    (drained : List NoiseGeneratorSettingsUpdate) (st : MergeState) : MergeState :=
  drained.foldl applyUpdateMessage st

/-- The spec's five-field `LiveSettings` view of the live state: the four
record fields of `NoiseGeneratorSettings` together with the octave count,
which the code realizes inside the noise generator's engine. -/
structure LiveSettingsView where
  width_divider : ℚ
  height_multiplier : ℚ
  segment_width : ℚ
  frame_time_divider : ℚ
  perlin_noise_octaves : ℕ
deriving DecidableEq, Repr

/-- Abstraction function from the code state to the spec's `LiveSettings`. -/
def liveSettings (st : MergeState) : LiveSettingsView :=
  { width_divider := st.settings.width_divider
    height_multiplier := st.settings.height_multiplier
    segment_width := st.settings.segment_width
    frame_time_divider := st.settings.frame_time_divider
    perlin_noise_octaves := st.generator.generator.octaves }

/-- The state `setup_system` installs (src/main.rs:166-172 with the
constants of src/main.rs:22-29): default settings and a fresh
`BasicMulti::<Perlin>::new(100).set_octaves(2)` with `elapsed_step = 0`. -/
def initialMergeState : MergeState :=
  { settings := NoiseGeneratorSettings.default
    generator :=
      { generator := (BasicMultiPerlin.mk 100 0).set_octaves 2
        elapsed_step := 0 }
    setOctavesCalls := [] }

/-! ### The channel bridge

`start_zenoh_worker` (src/main.rs:318-335) creates
`channel::<NoiseGeneratorSettingsUpdate>(10)`: a bounded tokio mpsc
channel of capacity 10 with one producer (the zenoh worker) and one
consumer (the per-frame system). -/

/-- The channel's capacity, fixed at creation (src/main.rs:319). -/
def channelCapacity : ℕ := 10

/-- The bounded mpsc channel: its queued, not-yet-drained items, oldest
first. -/
structure Channel (α : Type) where
  queue : List α
deriving DecidableEq, Repr

/-- A freshly created channel is empty. -/
def Channel.empty (α : Type) : Channel α := ⟨[]⟩

/-- Producer-side `send`: enqueues when the channel holds fewer than
`channelCapacity` items, and otherwise would suspend the producer
(modelled as `none`; tokio's bounded `send` never drops a message). -/
def Channel.send (c : Channel α) (x : α) : Option (Channel α) :=
  if c.queue.length < channelCapacity then some ⟨c.queue ++ [x]⟩ else none

/-- Consumer-side drain: the `while let Ok(message) = receiver.try_recv()`
loop (src/main.rs:397) takes every queued item in FIFO order and leaves
the channel empty; `try_recv` never suspends, so on an empty channel the
drain returns at once with nothing. -/
def Channel.drainAll (c : Channel α) : List α × Channel α :=
  (c.queue, ⟨[]⟩)

/-- One producer- or consumer-side channel operation. -/
inductive ChanOp (α : Type)
  | send (x : α)
  | drain
deriving DecidableEq, Repr

/-- Result of running a sequence of channel operations: the final channel,
everything the consumer drained (in drain order), and whether every send
found free capacity («true» iff no send ever hit a full queue). -/
structure ChanExec (α : Type) where
  chan : Channel α
  drained : List α
  allSendsFit : Bool
deriving DecidableEq, Repr

/-- Run a sequence of channel operations from a given channel state.  A
send that finds the queue full clears `allSendsFit` (in the real channel
it would suspend the producer instead; no run with `allSendsFit = true`
ever reaches that branch). -/
def execChanOps (c : Channel α) : List (ChanOp α) → ChanExec α
  | [] => ⟨c, [], true⟩
  | ChanOp.send x :: rest =>
    match c.send x with
    | some c2 => execChanOps c2 rest
    | none =>
      let r := execChanOps c rest
      ⟨r.chan, r.drained, false⟩
  | ChanOp.drain :: rest =>
    let r := execChanOps (c.drainAll).2 rest
    ⟨r.chan, (c.drainAll).1 ++ r.drained, r.allSendsFit⟩

/-- The messages a sequence of channel operations sends, in order. -/
def sentOf : List (ChanOp α) → List α
  | [] => []
  | ChanOp.send x :: rest => x :: sentOf rest
  | ChanOp.drain :: rest => sentOf rest

/-! ### One iteration of `run_zenoh_loop` and the worker restart loop

`run_zenoh_loop` (src/main.rs:337-390, identical in
src/messaging.rs:38-91): open a session, declare the `face/settings`
subscriber, declare the `face/display` subscriber, spawn the display
task, then run the settings receive loop inline.  The environment below
scripts what the transport and the outside world do during one
iteration. -/

/-- A raw payload as the subscriber hands it over: bytes that fail the
UTF-8 conversion, text that fails JSON parsing, or a parsed JSON
document. -/
inductive Payload
  | badUtf8
  | badJson
  | json (j : Json)

/-- One outcome of `recv_async().await` on a subscriber: a transport
receive failure (`Err`, ending that `while let` loop) or a delivered
message. -/
inductive RecvResult
  | recvErr
  | msg (p : Payload)

/-- The errors one iteration of `run_zenoh_loop` can return (each is an
`anyhow` error in the source; `decodeError` covers both the failed UTF-8
conversion and the failed JSON parse on the settings path). -/
inductive ZError
  | sessionOpenError
  | subscribeError
  | decodeError
  | channelClosedError
deriving DecidableEq, Repr

/-- How an iteration's settings loop stands after the scripted events:
still waiting for the next message, ended with `Ok(())` (the `while let`
saw a receive error), or ended with `Err`. -/
inductive IterEnd
  | stillRunning
  | endedOk
  | endedErr (e : ZError)
deriving DecidableEq, Repr

/-- Decoding a settings payload (src/main.rs:379-384): the UTF-8
conversion and the JSON parse are both `?`-propagated as errors. -/
def decodeSettingsPayload : Payload → Except ZError NoiseGeneratorSettingsUpdate
  | Payload.badUtf8 => Except.error ZError.decodeError
  | Payload.badJson => Except.error ZError.decodeError
  | Payload.json j =>
    match NoiseGeneratorSettingsUpdate.decode j with
    | some u => Except.ok u
    | none => Except.error ZError.decodeError

/-- The settings receive loop (src/main.rs:378-389): each delivered
message is decoded and sent into the channel; a decode failure ends the
iteration with `Err`, a receive failure exits the `while let` and the
function returns `Ok(())`.  Returns the updates sent into the channel, in
order, and how the loop ended. -/
def processSettingsEvents : List RecvResult → List NoiseGeneratorSettingsUpdate × IterEnd
  | [] => ([], IterEnd.stillRunning)
  | RecvResult.recvErr :: _ => ([], IterEnd.endedOk)
  | RecvResult.msg p :: rest =>
    match decodeSettingsPayload p with
    | Except.error e => ([], IterEnd.endedErr e)
    | Except.ok u =>
      (u :: (processSettingsEvents rest).1, (processSettingsEvents rest).2)

/-- A call the display task makes on the display collaborator
(`turn_on_display` / `turn_off_display`, src/display.rs). -/
inductive DisplayCall
  | turnOn
  | turnOff
deriving DecidableEq, Repr

/-- How the spawned display task stands after the scripted events: still
waiting, ended quietly (its `while let` saw a receive error), or dead of
a panic (an `.expect` on the UTF-8 conversion or the JSON parse failed). -/
inductive DisplayTaskEnd
  | stillRunning
  | endedQuietly
  | panicked
deriving DecidableEq, Repr

/-- Decoding a display payload: the task calls `.expect` on both the
UTF-8 conversion and the JSON parse (src/main.rs:362-367), so either
failure is a panic (`none`). -/
def decodeDisplayPayload : Payload → Option DisplayControlMessage
  | Payload.badUtf8 => none
  | Payload.badJson => none
  | Payload.json j => DisplayControlMessage.decode j

/-- The display task spawned per session (src/main.rs:360-376): for each
delivered message it decodes a `DisplayControlMessage` and calls
`turn_on_display()` when `display_on` is true, `turn_off_display()`
otherwise; a decode failure panics the task, which processes nothing
further. -/
def processDisplayEvents : List RecvResult → List DisplayCall × DisplayTaskEnd
  | [] => ([], DisplayTaskEnd.stillRunning)
  | RecvResult.recvErr :: _ => ([], DisplayTaskEnd.endedQuietly)
  | RecvResult.msg p :: rest =>
    match decodeDisplayPayload p with
    | none => ([], DisplayTaskEnd.panicked)
    | some m =>
      ((if m.display_on then DisplayCall.turnOn else DisplayCall.turnOff)
          :: (processDisplayEvents rest).1,
        (processDisplayEvents rest).2)

/-- Everything the transport does during one iteration of
`run_zenoh_loop`: whether the session open and the two subscriber
declarations succeed, and the event streams the two subscribers then
deliver. -/
structure IterEnv where
  openOk : Bool
  subscribeSettingsOk : Bool
  subscribeDisplayOk : Bool
  settingsEvents : List RecvResult
  displayEvents : List RecvResult

/-- Observable outcome of one iteration of `run_zenoh_loop`. -/
structure IterOutput where
  sessionOpened : Bool
  settingsSubscribed : Bool
  displaySubscribed : Bool
  displayTaskSpawned : Bool
  displayCalls : List DisplayCall
  displayTaskEnd : DisplayTaskEnd
  sentUpdates : List NoiseGeneratorSettingsUpdate
  result : IterEnd
deriving DecidableEq, Repr

/-- One iteration of `run_zenoh_loop` (src/main.rs:337-390): a failed
open or a failed subscriber declaration `?`-returns before anything else
happens; otherwise the display task is spawned and the settings loop
runs inline. -/
def run_zenoh_loop (env : IterEnv) : IterOutput :=
  if env.openOk = false then
    { sessionOpened := false, settingsSubscribed := false,
      displaySubscribed := false, displayTaskSpawned := false,
      displayCalls := [], displayTaskEnd := DisplayTaskEnd.stillRunning,
      sentUpdates := [], result := IterEnd.endedErr ZError.sessionOpenError }
  else if env.subscribeSettingsOk = false then
    { sessionOpened := true, settingsSubscribed := false,
      displaySubscribed := false, displayTaskSpawned := false,
      displayCalls := [], displayTaskEnd := DisplayTaskEnd.stillRunning,
      sentUpdates := [], result := IterEnd.endedErr ZError.subscribeError }
  else if env.subscribeDisplayOk = false then
    { sessionOpened := true, settingsSubscribed := true,
      displaySubscribed := false, displayTaskSpawned := false,
      displayCalls := [], displayTaskEnd := DisplayTaskEnd.stillRunning,
      sentUpdates := [], result := IterEnd.endedErr ZError.subscribeError }
  else
    let (calls, dEnd) := processDisplayEvents env.displayEvents
    let (us, sEnd) := processSettingsEvents env.settingsEvents
    { sessionOpened := true, settingsSubscribed := true,
      displaySubscribed := true, displayTaskSpawned := true,
      displayCalls := calls, displayTaskEnd := dEnd,
      sentUpdates := us, result := sEnd }

/-- What the restart loop's body does after an iteration: `loop { if let
Err(error) = run_zenoh_loop(..) { error!(..) } }` (src/main.rs:326-330)
has no `break` or `return`, so control always continues with the next
iteration. -/
inductive LoopControl
  | continueLoop
  | returnControl
deriving DecidableEq, Repr

/-- One pass of the restart loop's body in `start_zenoh_worker`
(src/main.rs:321-332): run an iteration, log iff it returned `Err`, and
continue.  Returns the iteration's output, whether the failure was
logged, and what control does next. -/
def start_zenoh_worker_body (env : IterEnv) : IterOutput × Bool × LoopControl :=
  let out := run_zenoh_loop env
  let logged :=
    match out.result with
    | IterEnd.endedErr _ => true
    | _ => false
  (out, logged, LoopControl.continueLoop)

/-- The restart loop as a state machine: `some k` means the loop is about
to run iteration `k`; `none` would mean the loop returned control to its
caller.  Scripted by one environment per iteration. -/
def workerState (envs : ℕ → IterEnv) : ℕ → Option ℕ
  | 0 => some 0
  | n + 1 =>
    match workerState envs n with
    | none => none
    | some k =>
      match (start_zenoh_worker_body (envs k)).2.2 with
      | LoopControl.continueLoop => some (k + 1)
      | LoopControl.returnControl => none

/-! ### Helper lemmas about the merge -/

/-- Normal form of one merge step: each populated field overwrites its
settings field, a populated octave count reconfigures the engine and is
logged, and `elapsed_step` is untouched. -/
theorem applyUpdateMessage_eq (st : MergeState) (u : NoiseGeneratorSettingsUpdate) :
    applyUpdateMessage st u =
      { settings :=
          { width_divider := u.width_divider.getD st.settings.width_divider
            height_multiplier := u.height_multiplier.getD st.settings.height_multiplier
            segment_width := u.segment_width.getD st.settings.segment_width
            frame_time_divider := u.frame_time_divider.getD st.settings.frame_time_divider }
        generator :=
          { generator :=
              { st.generator.generator with
                octaves := u.perlin_noise_octaves.getD st.generator.generator.octaves }
            elapsed_step := st.generator.elapsed_step }
        setOctavesCalls := st.setOctavesCalls ++ u.perlin_noise_octaves.toList } := by
  obtain ⟨wd, hm, sw, fd, po⟩ := u
  cases wd <;> cases hm <;> cases sw <;> cases fd <;> cases po <;>
    simp [applyUpdateMessage, BasicMultiPerlin.set_octaves]

theorem applyUpdate_width (st : MergeState) (u : NoiseGeneratorSettingsUpdate) :
    (applyUpdateMessage st u).settings.width_divider
      = u.width_divider.getD st.settings.width_divider := by
  rw [applyUpdateMessage_eq]

theorem applyUpdate_height (st : MergeState) (u : NoiseGeneratorSettingsUpdate) :
    (applyUpdateMessage st u).settings.height_multiplier
      = u.height_multiplier.getD st.settings.height_multiplier := by
  rw [applyUpdateMessage_eq]

theorem applyUpdate_segment (st : MergeState) (u : NoiseGeneratorSettingsUpdate) :
    (applyUpdateMessage st u).settings.segment_width
      = u.segment_width.getD st.settings.segment_width := by
  rw [applyUpdateMessage_eq]

theorem applyUpdate_frame (st : MergeState) (u : NoiseGeneratorSettingsUpdate) :
    (applyUpdateMessage st u).settings.frame_time_divider
      = u.frame_time_divider.getD st.settings.frame_time_divider := by
  rw [applyUpdateMessage_eq]

theorem applyUpdate_octaves (st : MergeState) (u : NoiseGeneratorSettingsUpdate) :
    (applyUpdateMessage st u).generator.generator.octaves
      = u.perlin_noise_octaves.getD st.generator.generator.octaves := by
  rw [applyUpdateMessage_eq]

theorem applyUpdate_elapsed (st : MergeState) (u : NoiseGeneratorSettingsUpdate) :
    (applyUpdateMessage st u).generator.elapsed_step = st.generator.elapsed_step := by
  rw [applyUpdateMessage_eq]

theorem applyUpdate_calls (st : MergeState) (u : NoiseGeneratorSettingsUpdate) :
    (applyUpdateMessage st u).setOctavesCalls
      = st.setOctavesCalls ++ u.perlin_noise_octaves.toList := by
  rw [applyUpdateMessage_eq]

/-- Last-populated-wins, in list form: prepending an update folds its
populated value (if any) into the fallback. -/
theorem getLast?_filterMap_cons {α β : Type} (f : β → Option α) (u : β)
    (us : List β) (v : α) :
    (((u :: us).filterMap f).getLast?).getD v
      = ((us.filterMap f).getLast?).getD ((f u).getD v) := by
  cases hu : f u with
  | none => rw [List.filterMap_cons_none hu, Option.getD_none]
  | some w =>
    rw [List.filterMap_cons_some hu, Option.getD_some]
    cases us.filterMap f with
    | nil => simp
    | cons x xs =>
      rw [List.getLast?_cons_cons]
      obtain ⟨a, ha⟩ := Option.isSome_iff_exists.mp
        (List.getLast?_isSome.mpr (List.cons_ne_nil x xs))
      rw [ha, Option.getD_some, Option.getD_some]

theorem process_width (us : List NoiseGeneratorSettingsUpdate) (st : MergeState) :
    (process_noise_generator_update_messages us st).settings.width_divider
      = ((us.filterMap (fun u => u.width_divider)).getLast?).getD
          st.settings.width_divider := by
  induction us generalizing st with
  | nil => rfl
  | cons u rest ih =>
    rw [getLast?_filterMap_cons,
      show process_noise_generator_update_messages (u :: rest) st
          = process_noise_generator_update_messages rest (applyUpdateMessage st u) from rfl,
      ih, applyUpdate_width]

theorem process_height (us : List NoiseGeneratorSettingsUpdate) (st : MergeState) :
    (process_noise_generator_update_messages us st).settings.height_multiplier
      = ((us.filterMap (fun u => u.height_multiplier)).getLast?).getD
          st.settings.height_multiplier := by
  induction us generalizing st with
  | nil => rfl
  | cons u rest ih =>
    rw [getLast?_filterMap_cons,
      show process_noise_generator_update_messages (u :: rest) st
          = process_noise_generator_update_messages rest (applyUpdateMessage st u) from rfl,
      ih, applyUpdate_height]

theorem process_segment (us : List NoiseGeneratorSettingsUpdate) (st : MergeState) :
    (process_noise_generator_update_messages us st).settings.segment_width
      = ((us.filterMap (fun u => u.segment_width)).getLast?).getD
          st.settings.segment_width := by
  induction us generalizing st with
  | nil => rfl
  | cons u rest ih =>
    rw [getLast?_filterMap_cons,
      show process_noise_generator_update_messages (u :: rest) st
          = process_noise_generator_update_messages rest (applyUpdateMessage st u) from rfl,
      ih, applyUpdate_segment]

theorem process_frame (us : List NoiseGeneratorSettingsUpdate) (st : MergeState) :
    (process_noise_generator_update_messages us st).settings.frame_time_divider
      = ((us.filterMap (fun u => u.frame_time_divider)).getLast?).getD
          st.settings.frame_time_divider := by
  induction us generalizing st with
  | nil => rfl
  | cons u rest ih =>
    rw [getLast?_filterMap_cons,
      show process_noise_generator_update_messages (u :: rest) st
          = process_noise_generator_update_messages rest (applyUpdateMessage st u) from rfl,
      ih, applyUpdate_frame]

theorem process_octaves (us : List NoiseGeneratorSettingsUpdate) (st : MergeState) :
    (process_noise_generator_update_messages us st).generator.generator.octaves
      = ((us.filterMap (fun u => u.perlin_noise_octaves)).getLast?).getD
          st.generator.generator.octaves := by
  induction us generalizing st with
  | nil => rfl
  | cons u rest ih =>
    rw [getLast?_filterMap_cons,
      show process_noise_generator_update_messages (u :: rest) st
          = process_noise_generator_update_messages rest (applyUpdateMessage st u) from rfl,
      ih, applyUpdate_octaves]

theorem process_elapsed (us : List NoiseGeneratorSettingsUpdate) (st : MergeState) :
    (process_noise_generator_update_messages us st).generator.elapsed_step
      = st.generator.elapsed_step := by
  induction us generalizing st with
  | nil => rfl
  | cons u rest ih =>
    rw [show process_noise_generator_update_messages (u :: rest) st
          = process_noise_generator_update_messages rest (applyUpdateMessage st u) from rfl,
      ih, applyUpdate_elapsed]

theorem process_calls (us : List NoiseGeneratorSettingsUpdate) (st : MergeState) :
    (process_noise_generator_update_messages us st).setOctavesCalls
      = st.setOctavesCalls ++ us.filterMap (fun u => u.perlin_noise_octaves) := by
  induction us generalizing st with
  | nil => simp [process_noise_generator_update_messages]
  | cons u rest ih =>
    rw [show process_noise_generator_update_messages (u :: rest) st
          = process_noise_generator_update_messages rest (applyUpdateMessage st u) from rfl,
      ih, applyUpdate_calls]
    cases hu : u.perlin_noise_octaves with
    | none => rw [List.filterMap_cons_none hu, Option.toList_none, List.append_nil]
    | some w =>
      rw [List.filterMap_cons_some hu, Option.toList_some, List.append_assoc]
      rfl

/-! ### Claims about the merge -/

/-- Claim C1: for every finite sequence of well-formed settings updates
drained by the merge system within one tick, the resulting live settings
equal the sequential field-wise application of the updates in arrival
order: processing is exactly the in-order fold of single-message
application, and for each of the five fields of the `LiveSettings` view
the final value is the last populated value among the drained updates
when one exists and the prior value otherwise (so unset fields leave the
field untouched, populated fields overwrite only their own field, and
with several updates populating one field the last in arrival order
wins). -/
theorem C1_merge_is_field_wise_in_order
    (c : Channel NoiseGeneratorSettingsUpdate) (st : MergeState) :
    (process_noise_generator_update_messages (c.drainAll).1 st
        = ((c.drainAll).1).foldl applyUpdateMessage st)
    ∧ (liveSettings (process_noise_generator_update_messages (c.drainAll).1 st)).width_divider
        = ((((c.drainAll).1).filterMap (fun u => u.width_divider)).getLast?).getD
            (liveSettings st).width_divider
    ∧ (liveSettings (process_noise_generator_update_messages (c.drainAll).1 st)).height_multiplier
        = ((((c.drainAll).1).filterMap (fun u => u.height_multiplier)).getLast?).getD
            (liveSettings st).height_multiplier
    ∧ (liveSettings (process_noise_generator_update_messages (c.drainAll).1 st)).segment_width
        = ((((c.drainAll).1).filterMap (fun u => u.segment_width)).getLast?).getD
            (liveSettings st).segment_width
    ∧ (liveSettings (process_noise_generator_update_messages (c.drainAll).1 st)).frame_time_divider
        = ((((c.drainAll).1).filterMap (fun u => u.frame_time_divider)).getLast?).getD
            (liveSettings st).frame_time_divider
    ∧ (liveSettings (process_noise_generator_update_messages (c.drainAll).1 st)).perlin_noise_octaves
        = ((((c.drainAll).1).filterMap (fun u => u.perlin_noise_octaves)).getLast?).getD
            (liveSettings st).perlin_noise_octaves := by
  exact ⟨rfl, process_width _ _, process_height _ _, process_segment _ _,
    process_frame _ _, process_octaves _ _⟩

/-- Claim C2: draining `{"perlin_noise_octaves": 4}` and then
`{"width_divider": 30.0}` in a single tick from the startup state leaves
the live octave count (realized by the generator's engine configuration)
at 4 with exactly one `set_octaves(4)` collaborator call, sets
`width_divider` to 30.0, and leaves every other live settings field at
its prior (default) value. -/
theorem C2_octaves_then_width_scenario :
    NoiseGeneratorSettingsUpdate.decode
        (Json.obj [("perlin_noise_octaves", Json.num (JsonNum.int 4))])
      = some ⟨none, none, none, none, some 4⟩
    ∧ NoiseGeneratorSettingsUpdate.decode
        (Json.obj [("width_divider", Json.num (JsonNum.float 30))])
      = some ⟨some 30, none, none, none, none⟩
    ∧ liveSettings
        (process_noise_generator_update_messages
          [⟨none, none, none, none, some 4⟩, ⟨some 30, none, none, none, none⟩]
          initialMergeState)
      = { width_divider := 30, height_multiplier := 400, segment_width := 5,
          frame_time_divider := 8, perlin_noise_octaves := 4 }
    ∧ (process_noise_generator_update_messages
          [⟨none, none, none, none, some 4⟩, ⟨some 30, none, none, none, none⟩]
          initialMergeState).setOctavesCalls = [4]
    ∧ (liveSettings initialMergeState).height_multiplier = 400
    ∧ (liveSettings initialMergeState).segment_width = 5
    ∧ (liveSettings initialMergeState).frame_time_divider = 8 := by
  refine ⟨?_, ?_, ?_, ?_, ?_, ?_, ?_⟩ <;> decide

/-- Claim C9: processing any sequence of settings updates never modifies
the noise generator's `elapsed_step` accumulator, so animation time
continuity is preserved across every reconfiguration, including ones that
replace the engine via `set_octaves`. -/
theorem C9_elapsed_step_never_modified
    (us : List NoiseGeneratorSettingsUpdate) (st : MergeState) :
    (process_noise_generator_update_messages us st).generator.elapsed_step
      = st.generator.elapsed_step :=
  process_elapsed us st

/-! ### Channel bridge claims -/

/-- No loss and FIFO order for channel runs in which every send found
free capacity: everything drained, followed by what is still queued,
is exactly the initial queue followed by the sent messages in order. -/
theorem execChanOps_no_loss {α : Type} (ops : List (ChanOp α)) (c : Channel α)
    (h : (execChanOps c ops).allSendsFit = true) :
    (execChanOps c ops).drained ++ (execChanOps c ops).chan.queue
      = c.queue ++ sentOf ops := by
  induction ops generalizing c with
  | nil => simp [execChanOps, sentOf]
  | cons op rest ih =>
    cases op with
    | send x =>
      by_cases hlt : c.queue.length < channelCapacity
      · have hstep : execChanOps c (ChanOp.send x :: rest)
            = execChanOps ⟨c.queue ++ [x]⟩ rest := by
          simp [execChanOps, Channel.send, hlt]
        rw [hstep] at h ⊢
        rw [ih _ h]
        simp [sentOf]
      · have hfit : (execChanOps c (ChanOp.send x :: rest)).allSendsFit = false := by
          simp [execChanOps, Channel.send, hlt]
        rw [hfit] at h
        exact absurd h (by simp)
    | drain =>
      have hstep : execChanOps c (ChanOp.drain :: rest)
          = ⟨(execChanOps ⟨[]⟩ rest).chan,
             c.queue ++ (execChanOps ⟨[]⟩ rest).drained,
             (execChanOps ⟨[]⟩ rest).allSendsFit⟩ := by
        simp [execChanOps, Channel.drainAll]
      rw [hstep] at h ⊢
      have hrest := ih ⟨[]⟩ h
      simp only [sentOf]
      rw [List.append_assoc, hrest]
      simp

/-- Claim C3: the channel bridge is a bounded FIFO of capacity 10: in any
run of sends and drains in which every send finds free capacity (at most
10 outstanding items at each send), no message is lost and the drained
items, followed by what is still queued, are exactly the sent messages in
send order; and the consumer-side drain is non-blocking, returning
immediately with nothing on an empty channel. -/
theorem C3_channel_bounded_fifo {α : Type} (ops : List (ChanOp α))
    (h : (execChanOps (Channel.empty α) ops).allSendsFit = true) :
    ((execChanOps (Channel.empty α) ops).drained
        ++ (execChanOps (Channel.empty α) ops).chan.queue = sentOf ops)
    ∧ channelCapacity = 10
    ∧ (∀ c : Channel α, c.queue = [] → c.drainAll = ([], c)) := by
  refine ⟨?_, rfl, ?_⟩
  · have := execChanOps_no_loss ops (Channel.empty α) h
    simpa [Channel.empty] using this
  · intro c hc
    cases c
    simp only at hc
    subst hc
    rfl

theorem C3_channel_bounded_fifo_witness :
    ((execChanOps (Channel.empty ℕ)
        [ChanOp.send 1, ChanOp.send 2, ChanOp.drain, ChanOp.send 3]).allSendsFit = true)
    ∧ (((execChanOps (Channel.empty ℕ)
          [ChanOp.send 1, ChanOp.send 2, ChanOp.drain, ChanOp.send 3]).drained
        ++ (execChanOps (Channel.empty ℕ)
          [ChanOp.send 1, ChanOp.send 2, ChanOp.drain, ChanOp.send 3]).chan.queue
        = sentOf [ChanOp.send 1, ChanOp.send 2, ChanOp.drain, ChanOp.send 3])
      ∧ channelCapacity = 10
      ∧ (∀ c : Channel ℕ, c.queue = [] → c.drainAll = ([], c))) :=
  ⟨by decide,
   C3_channel_bounded_fifo [ChanOp.send 1, ChanOp.send 2, ChanOp.drain, ChanOp.send 3]
     (by decide)⟩

/-! ### Display path claims -/

/-- Claim C5: on the display path, a payload decoding to
`{"display_on": true}` causes exactly one `turn_on_display` call and no
`turn_off_display` call, while `{}` and `{"display_on": false}` each
cause exactly one `turn_off_display` call and no `turn_on_display` call;
`display_on` defaults to `false` when absent from the payload. -/
theorem C5_display_command_dispatch :
    processDisplayEvents
        [RecvResult.msg (Payload.json (Json.obj [("display_on", Json.bool true)]))]
      = ([DisplayCall.turnOn], DisplayTaskEnd.stillRunning)
    ∧ processDisplayEvents [RecvResult.msg (Payload.json (Json.obj []))]
      = ([DisplayCall.turnOff], DisplayTaskEnd.stillRunning)
    ∧ processDisplayEvents
        [RecvResult.msg (Payload.json (Json.obj [("display_on", Json.bool false)]))]
      = ([DisplayCall.turnOff], DisplayTaskEnd.stillRunning)
    ∧ DisplayControlMessage.decode (Json.obj []) = some ⟨false⟩ := by
  refine ⟨?_, ?_, ?_, ?_⟩ <;> decide

/-! ### Settings decoding claims -/

/-- A present value of a field either is absent or decodes through `dec`
(`null` is deliberately not covered: an `Option` field accepts it). -/
def presentWellTyped {α : Type} (dec : Json → Option α)
    (fields : List (String × Json)) (key : String) : Bool :=
  match lookupField fields key with
  | none => true
  | some v => (dec v).isSome

/-- A field value serde would reject: present, not `null`, and refused by
`dec`. -/
def fieldValueRejected {α : Type} (dec : Json → Option α)
    (fields : List (String × Json)) (key : String) : Bool :=
  match lookupField fields key with
  | none => false
  | some Json.null => false
  | some v => (dec v).isNone

/-- Which decoder governs a known key: `perlin_noise_octaves` decodes as
`usize`, the other four as floats. -/
def knownFieldRejected (fields : List (String × Json)) (k : String) : Bool :=
  if k = "perlin_noise_octaves" then fieldValueRejected decodeUsizeJson fields k
  else fieldValueRejected decodeF64Json fields k

theorem decodeOptNumField_of_wellTyped (fields : List (String × Json)) (key : String)
    (h : presentWellTyped decodeF64Json fields key = true) :
    decodeOptNumField fields key = some ((lookupField fields key).bind decodeF64Json) := by
  unfold presentWellTyped at h
  unfold decodeOptNumField
  cases hl : lookupField fields key with
  | none => rfl
  | some v =>
    rw [hl] at h
    cases v
    case num n =>
      obtain ⟨q, hq⟩ := Option.isSome_iff_exists.mp h
      show (decodeF64Json (Json.num n)).map some = some (decodeF64Json (Json.num n))
      rw [hq]
      rfl
    all_goals simp [decodeF64Json] at h

theorem decodeOptUsizeField_of_wellTyped (fields : List (String × Json)) (key : String)
    (h : presentWellTyped decodeUsizeJson fields key = true) :
    decodeOptUsizeField fields key = some ((lookupField fields key).bind decodeUsizeJson) := by
  unfold presentWellTyped at h
  unfold decodeOptUsizeField
  cases hl : lookupField fields key with
  | none => rfl
  | some v =>
    rw [hl] at h
    cases v
    case num n =>
      obtain ⟨m, hm⟩ := Option.isSome_iff_exists.mp h
      show (decodeUsizeJson (Json.num n)).map some = some (decodeUsizeJson (Json.num n))
      rw [hm]
      rfl
    all_goals simp [decodeUsizeJson] at h

/-- Claim C6: decoding a settings payload succeeds for every JSON object
in which each of the five known keys is independently present (with a
value of its field's type) or absent and unknown keys are arbitrary; the
decoded update has exactly the present known keys populated — each field
is the decoding of that key's value when the key is present and unset
when it is absent, and unknown keys are ignored (the result depends only
on the five known keys' lookups). -/
theorem C6_settings_decode_success (fields : List (String × Json))
    (hdup : knownKeys.any (fun k => 1 < keyCount fields k) = false)
    (hwd : presentWellTyped decodeF64Json fields "width_divider" = true)
    (hhm : presentWellTyped decodeF64Json fields "height_multiplier" = true)
    (hsw : presentWellTyped decodeF64Json fields "segment_width" = true)
    (hfd : presentWellTyped decodeF64Json fields "frame_time_divider" = true)
    (hpo : presentWellTyped decodeUsizeJson fields "perlin_noise_octaves" = true) :
    NoiseGeneratorSettingsUpdate.decode (Json.obj fields)
      = some
        { width_divider := (lookupField fields "width_divider").bind decodeF64Json
          height_multiplier := (lookupField fields "height_multiplier").bind decodeF64Json
          segment_width := (lookupField fields "segment_width").bind decodeF64Json
          frame_time_divider := (lookupField fields "frame_time_divider").bind decodeF64Json
          perlin_noise_octaves :=
            (lookupField fields "perlin_noise_octaves").bind decodeUsizeJson } := by
  rw [NoiseGeneratorSettingsUpdate.decode]
  rw [if_neg (fun hcon => Bool.false_ne_true (hdup ▸ hcon))]
  rw [decodeOptNumField_of_wellTyped fields "width_divider" hwd,
    decodeOptNumField_of_wellTyped fields "height_multiplier" hhm,
    decodeOptNumField_of_wellTyped fields "segment_width" hsw,
    decodeOptNumField_of_wellTyped fields "frame_time_divider" hfd,
    decodeOptUsizeField_of_wellTyped fields "perlin_noise_octaves" hpo]

theorem C6_settings_decode_success_witness :
    ((knownKeys.any (fun k =>
          1 < keyCount [("width_divider", Json.num (JsonNum.float 30)),
            ("color", Json.str "red"),
            ("perlin_noise_octaves", Json.num (JsonNum.int 4))] k) = false)
      ∧ presentWellTyped decodeF64Json
          [("width_divider", Json.num (JsonNum.float 30)), ("color", Json.str "red"),
            ("perlin_noise_octaves", Json.num (JsonNum.int 4))] "width_divider" = true)
    ∧ NoiseGeneratorSettingsUpdate.decode
        (Json.obj [("width_divider", Json.num (JsonNum.float 30)),
          ("color", Json.str "red"),
          ("perlin_noise_octaves", Json.num (JsonNum.int 4))])
      = some
        { width_divider :=
            (lookupField [("width_divider", Json.num (JsonNum.float 30)),
              ("color", Json.str "red"),
              ("perlin_noise_octaves", Json.num (JsonNum.int 4))]
              "width_divider").bind decodeF64Json
          height_multiplier :=
            (lookupField [("width_divider", Json.num (JsonNum.float 30)),
              ("color", Json.str "red"),
              ("perlin_noise_octaves", Json.num (JsonNum.int 4))]
              "height_multiplier").bind decodeF64Json
          segment_width :=
            (lookupField [("width_divider", Json.num (JsonNum.float 30)),
              ("color", Json.str "red"),
              ("perlin_noise_octaves", Json.num (JsonNum.int 4))]
              "segment_width").bind decodeF64Json
          frame_time_divider :=
            (lookupField [("width_divider", Json.num (JsonNum.float 30)),
              ("color", Json.str "red"),
              ("perlin_noise_octaves", Json.num (JsonNum.int 4))]
              "frame_time_divider").bind decodeF64Json
          perlin_noise_octaves :=
            (lookupField [("width_divider", Json.num (JsonNum.float 30)),
              ("color", Json.str "red"),
              ("perlin_noise_octaves", Json.num (JsonNum.int 4))]
              "perlin_noise_octaves").bind decodeUsizeJson } :=
  ⟨⟨by decide, by decide⟩,
   C6_settings_decode_success
     [("width_divider", Json.num (JsonNum.float 30)), ("color", Json.str "red"),
       ("perlin_noise_octaves", Json.num (JsonNum.int 4))]
     (by decide) (by decide) (by decide) (by decide) (by decide) (by decide)⟩

theorem decodeOptNumField_none_of_rejected (fields : List (String × Json)) (key : String)
    (h : fieldValueRejected decodeF64Json fields key = true) :
    decodeOptNumField fields key = none := by
  unfold fieldValueRejected at h
  unfold decodeOptNumField
  cases hl : lookupField fields key with
  | none => rw [hl] at h; simp at h
  | some v =>
    rw [hl] at h
    cases v
    all_goals simp_all [Option.isNone_iff_eq_none]

theorem decodeOptUsizeField_none_of_rejected (fields : List (String × Json)) (key : String)
    (h : fieldValueRejected decodeUsizeJson fields key = true) :
    decodeOptUsizeField fields key = none := by
  unfold fieldValueRejected at h
  unfold decodeOptUsizeField
  cases hl : lookupField fields key with
  | none => rw [hl] at h; simp at h
  | some v =>
    rw [hl] at h
    cases v
    all_goals simp_all [Option.isNone_iff_eq_none]

/-- Settings-message decoding is all-or-nothing at the level of the five
field decoders: if any of them errors, the whole message decodes to
nothing. -/
theorem decode_none_of_field_error (fields : List (String × Json))
    (h : decodeOptNumField fields "width_divider" = none
       ∨ decodeOptNumField fields "height_multiplier" = none
       ∨ decodeOptNumField fields "segment_width" = none
       ∨ decodeOptNumField fields "frame_time_divider" = none
       ∨ decodeOptUsizeField fields "perlin_noise_octaves" = none) :
    NoiseGeneratorSettingsUpdate.decode (Json.obj fields) = none := by
  rw [NoiseGeneratorSettingsUpdate.decode]
  split
  · rfl
  · cases hwd : decodeOptNumField fields "width_divider" <;>
    cases hhm : decodeOptNumField fields "height_multiplier" <;>
    cases hsw : decodeOptNumField fields "segment_width" <;>
    cases hfd : decodeOptNumField fields "frame_time_divider" <;>
    cases hpo : decodeOptUsizeField fields "perlin_noise_octaves" <;>
    simp_all

/-- Claim C10: settings-message decoding is all-or-nothing: if any
present known field of a settings payload carries a value its field type
rejects (for example `perlin_noise_octaves` given a negative or
non-integral number, since it decodes to an unsigned integer), the entire
message is rejected as a decode error: the iteration's settings loop
forwards nothing from it (so no field, not even one that would
individually have decoded, ever reaches the merge), and the live settings
are unchanged by that message. -/
theorem C10_settings_decode_all_or_nothing (fields : List (String × Json))
    (k : String) (rest : List RecvResult) (st : MergeState)
    (hk : k ∈ knownKeys) (hrej : knownFieldRejected fields k = true) :
    NoiseGeneratorSettingsUpdate.decode (Json.obj fields) = none
    ∧ processSettingsEvents (RecvResult.msg (Payload.json (Json.obj fields)) :: rest)
        = ([], IterEnd.endedErr ZError.decodeError)
    ∧ process_noise_generator_update_messages [] st = st := by
  have hnone : NoiseGeneratorSettingsUpdate.decode (Json.obj fields) = none := by
    apply decode_none_of_field_error
    simp only [knownKeys, List.mem_cons, List.not_mem_nil, or_false] at hk
    rcases hk with h | h | h | h | h <;> subst h <;>
      unfold knownFieldRejected at hrej
    · exact Or.inl (decodeOptNumField_none_of_rejected _ _ (by simpa using hrej))
    · exact Or.inr (Or.inl (decodeOptNumField_none_of_rejected _ _ (by simpa using hrej)))
    · exact Or.inr (Or.inr (Or.inl (decodeOptNumField_none_of_rejected _ _ (by simpa using hrej))))
    · exact Or.inr (Or.inr (Or.inr (Or.inl
        (decodeOptNumField_none_of_rejected _ _ (by simpa using hrej)))))
    · exact Or.inr (Or.inr (Or.inr (Or.inr
        (decodeOptUsizeField_none_of_rejected _ _ (by simpa using hrej)))))
  refine ⟨hnone, ?_, rfl⟩
  have hdec : decodeSettingsPayload (Payload.json (Json.obj fields))
      = Except.error ZError.decodeError := by
    rw [decodeSettingsPayload, hnone]
  rw [processSettingsEvents, hdec]

theorem C10_settings_decode_all_or_nothing_witness :
    (("perlin_noise_octaves" ∈ knownKeys
        ∧ knownFieldRejected
            [("perlin_noise_octaves", Json.num (JsonNum.float (5 / 2))),
              ("width_divider", Json.num (JsonNum.int 30))]
            "perlin_noise_octaves" = true))
    ∧ (NoiseGeneratorSettingsUpdate.decode
          (Json.obj [("perlin_noise_octaves", Json.num (JsonNum.float (5 / 2))),
            ("width_divider", Json.num (JsonNum.int 30))]) = none
      ∧ processSettingsEvents
          (RecvResult.msg (Payload.json
            (Json.obj [("perlin_noise_octaves", Json.num (JsonNum.float (5 / 2))),
              ("width_divider", Json.num (JsonNum.int 30))])) :: [])
        = ([], IterEnd.endedErr ZError.decodeError)
      ∧ process_noise_generator_update_messages [] initialMergeState
          = initialMergeState) :=
  ⟨⟨by decide, by decide⟩,
   C10_settings_decode_all_or_nothing
     [("perlin_noise_octaves", Json.num (JsonNum.float (5 / 2))),
       ("width_divider", Json.num (JsonNum.int 30))]
     "perlin_noise_octaves" [] initialMergeState (by decide) (by decide)⟩

/-! ### Session iteration and restart-loop claims -/

/-- Splitting the settings loop at a point it has not yet ended: the
events before the split are all forwarded, and the loop's fate is decided
by the events after it. -/
theorem processSettingsEvents_append (pre evs : List RecvResult)
    (h : (processSettingsEvents pre).2 = IterEnd.stillRunning) :
    processSettingsEvents (pre ++ evs)
      = ((processSettingsEvents pre).1 ++ (processSettingsEvents evs).1,
         (processSettingsEvents evs).2) := by
  induction pre with
  | nil => simp [processSettingsEvents]
  | cons ev rest ih =>
    cases ev with
    | recvErr => simp [processSettingsEvents] at h
    | msg p =>
      cases hd : decodeSettingsPayload p with
      | error e =>
        rw [processSettingsEvents, hd] at h
        simp at h
      | ok u =>
        rw [processSettingsEvents, hd] at h
        simp only at h
        rw [List.cons_append, processSettingsEvents, hd, ih h,
          processSettingsEvents, hd]
        simp

/-- Splitting the display task's event stream at a point the task is
still alive. -/
theorem processDisplayEvents_append (pre evs : List RecvResult)
    (h : (processDisplayEvents pre).2 = DisplayTaskEnd.stillRunning) :
    processDisplayEvents (pre ++ evs)
      = ((processDisplayEvents pre).1 ++ (processDisplayEvents evs).1,
         (processDisplayEvents evs).2) := by
  induction pre with
  | nil => simp [processDisplayEvents]
  | cons ev rest ih =>
    cases ev with
    | recvErr => simp [processDisplayEvents] at h
    | msg p =>
      cases hd : decodeDisplayPayload p with
      | none =>
        rw [processDisplayEvents, hd] at h
        simp at h
      | some m =>
        rw [processDisplayEvents, hd] at h
        simp only at h
        rw [List.cons_append, processDisplayEvents, hd, ih h,
          processDisplayEvents, hd]
        simp

/-- Normal form of one iteration when the open and both subscriber
declarations succeed. -/
theorem run_zenoh_loop_subscribed (env : IterEnv) (h1 : env.openOk = true)
    (h2 : env.subscribeSettingsOk = true) (h3 : env.subscribeDisplayOk = true) :
    run_zenoh_loop env =
      { sessionOpened := true, settingsSubscribed := true,
        displaySubscribed := true, displayTaskSpawned := true,
        displayCalls := (processDisplayEvents env.displayEvents).1,
        displayTaskEnd := (processDisplayEvents env.displayEvents).2,
        sentUpdates := (processSettingsEvents env.settingsEvents).1,
        result := (processSettingsEvents env.settingsEvents).2 } := by
  unfold run_zenoh_loop
  rw [h1, h2, h3]
  simp

/-- Claim C4 as stated is false on the code: a transport receive failure
on the settings path ends the `while let` loop, so `run_zenoh_loop`
returns `Ok(())` and the restart loop's `if let Err` logs nothing — the
SessionManager does not log that failure (it does immediately start a new
iteration). -/
theorem C4_counterexample :
    (run_zenoh_loop
        { openOk := true, subscribeSettingsOk := true, subscribeDisplayOk := true,
          settingsEvents := [RecvResult.recvErr], displayEvents := [] }).result
      = IterEnd.endedOk
    ∧ (start_zenoh_worker_body
        { openOk := true, subscribeSettingsOk := true, subscribeDisplayOk := true,
          settingsEvents := [RecvResult.recvErr], displayEvents := [] }).2.1
      = false :=
  ⟨rfl, rfl⟩

/-- Claim C4 (amended): every `SessionOpenError`, `SubscribeError` or
`DecodeError` on the settings path aborts the current session iteration
entirely — `run_zenoh_loop` returns the error, the restart loop logs the
failure and immediately begins another iteration (no backoff and no retry
limit, each fresh iteration opening a new session and declaring both
subscriptions from scratch).  A `TransportReceiveError` on the settings
path equally aborts the iteration and is immediately followed by a fresh
iteration, but the iteration then ends with `Ok(())` and nothing is
logged. -/
theorem C4_settings_errors_abort_iteration (env : IterEnv) (envs : ℕ → IterEnv) (n : ℕ) :
    (env.openOk = false →
      (run_zenoh_loop env).result = IterEnd.endedErr ZError.sessionOpenError
      ∧ (start_zenoh_worker_body env).2.1 = true)
    ∧ (env.openOk = true → env.subscribeSettingsOk = false →
      (run_zenoh_loop env).result = IterEnd.endedErr ZError.subscribeError
      ∧ (start_zenoh_worker_body env).2.1 = true)
    ∧ (env.openOk = true → env.subscribeSettingsOk = true →
        env.subscribeDisplayOk = false →
      (run_zenoh_loop env).result = IterEnd.endedErr ZError.subscribeError
      ∧ (start_zenoh_worker_body env).2.1 = true)
    ∧ (∀ pre p rest, env.openOk = true → env.subscribeSettingsOk = true →
        env.subscribeDisplayOk = true →
        env.settingsEvents = pre ++ RecvResult.msg p :: rest →
        (processSettingsEvents pre).2 = IterEnd.stillRunning →
        decodeSettingsPayload p = Except.error ZError.decodeError →
      (run_zenoh_loop env).result = IterEnd.endedErr ZError.decodeError
      ∧ (start_zenoh_worker_body env).2.1 = true
      ∧ (run_zenoh_loop env).sentUpdates = (processSettingsEvents pre).1)
    ∧ (∀ pre rest, env.openOk = true → env.subscribeSettingsOk = true →
        env.subscribeDisplayOk = true →
        env.settingsEvents = pre ++ RecvResult.recvErr :: rest →
        (processSettingsEvents pre).2 = IterEnd.stillRunning →
      (run_zenoh_loop env).result = IterEnd.endedOk
      ∧ (start_zenoh_worker_body env).2.1 = false)
    ∧ (start_zenoh_worker_body env).2.2 = LoopControl.continueLoop
    ∧ workerState envs n = some n
    ∧ (run_zenoh_loop env).sessionOpened = env.openOk
    ∧ (env.openOk = true → env.subscribeSettingsOk = true →
        env.subscribeDisplayOk = true →
      (run_zenoh_loop env).settingsSubscribed = true
      ∧ (run_zenoh_loop env).displaySubscribed = true) := by
  refine ⟨?_, ?_, ?_, ?_, ?_, rfl, ?_, ?_, ?_⟩
  · intro h1
    unfold run_zenoh_loop start_zenoh_worker_body
    simp [run_zenoh_loop, h1]
  · intro h1 h2
    unfold start_zenoh_worker_body
    simp [run_zenoh_loop, h1, h2]
  · intro h1 h2 h3
    unfold start_zenoh_worker_body
    simp [run_zenoh_loop, h1, h2, h3]
  · intro pre p rest h1 h2 h3 hev hpre hd
    have hend : processSettingsEvents env.settingsEvents
        = ((processSettingsEvents pre).1, IterEnd.endedErr ZError.decodeError) := by
      rw [hev, processSettingsEvents_append pre _ hpre, processSettingsEvents, hd]
      simp
    unfold start_zenoh_worker_body
    rw [run_zenoh_loop_subscribed env h1 h2 h3]
    simp [hend]
  · intro pre rest h1 h2 h3 hev hpre
    have hend : processSettingsEvents env.settingsEvents
        = ((processSettingsEvents pre).1, IterEnd.endedOk) := by
      rw [hev, processSettingsEvents_append pre _ hpre, processSettingsEvents]
      simp
    unfold start_zenoh_worker_body
    rw [run_zenoh_loop_subscribed env h1 h2 h3]
    simp [hend]
  · induction n with
    | zero => rfl
    | succ m ih =>
      rw [workerState, ih]
      rfl
  · unfold run_zenoh_loop
    cases h1 : env.openOk <;> cases h2 : env.subscribeSettingsOk <;>
      cases h3 : env.subscribeDisplayOk <;> simp [h1, h2, h3]
  · intro h1 h2 h3
    rw [run_zenoh_loop_subscribed env h1 h2 h3]
    exact ⟨rfl, rfl⟩

theorem C4_settings_errors_abort_iteration_witness :
    (({ openOk := false, subscribeSettingsOk := true, subscribeDisplayOk := true,
        settingsEvents := [], displayEvents := [] } : IterEnv).openOk = false)
    ∧ (run_zenoh_loop
        { openOk := false, subscribeSettingsOk := true, subscribeDisplayOk := true,
          settingsEvents := [], displayEvents := [] }).result
      = IterEnd.endedErr ZError.sessionOpenError
    ∧ (start_zenoh_worker_body
        { openOk := false, subscribeSettingsOk := true, subscribeDisplayOk := true,
          settingsEvents := [], displayEvents := [] }).2.1 = true :=
  ⟨rfl,
   ((C4_settings_errors_abort_iteration
      { openOk := false, subscribeSettingsOk := true, subscribeDisplayOk := true,
        settingsEvents := [], displayEvents := [] }
      (fun _ =>
        { openOk := false, subscribeSettingsOk := true, subscribeDisplayOk := true,
          settingsEvents := [], displayEvents := [] }) 0).1 rfl).1,
   ((C4_settings_errors_abort_iteration
      { openOk := false, subscribeSettingsOk := true, subscribeDisplayOk := true,
        settingsEvents := [], displayEvents := [] }
      (fun _ =>
        { openOk := false, subscribeSettingsOk := true, subscribeDisplayOk := true,
          settingsEvents := [], displayEvents := [] }) 0).1 rfl).2⟩

/-- Claim C7: the restart loop of `start_zenoh_worker` never terminates
and never returns control: whatever each iteration's outcome (error or
normal exit), the loop body continues, so after `n` body passes the loop
is about to run iteration `n` — there is no backoff state, no
cancellation and no retry bound in the state machine, and every iteration
attempts a fresh session open (the body is a total function of its
environment, so no transport failure escapes it to crash the host). -/
theorem C7_worker_loop_never_returns (envs : ℕ → IterEnv) (n : ℕ) :
    workerState envs n = some n
    ∧ (start_zenoh_worker_body (envs n)).2.2 = LoopControl.continueLoop
    ∧ (run_zenoh_loop (envs n)).sessionOpened = (envs n).openOk := by
  refine ⟨?_, rfl, ?_⟩
  · induction n with
    | zero => rfl
    | succ m ih =>
      rw [workerState, ih]
      rfl
  · unfold run_zenoh_loop
    cases h1 : (envs n).openOk <;> cases h2 : (envs n).subscribeSettingsOk <;>
      cases h3 : (envs n).subscribeDisplayOk <;> simp [h1, h2, h3]

/-- Claim C8: a malformed JSON payload on the `face/display` topic never
changes any live settings field — the settings path's forwarded updates,
the iteration result and the merged state do not depend on the display
events at all — but it does terminate that session's display task (the
calls made before the malformed message stand, nothing after it is
processed), and a display task is spawned again only by a full session
iteration (the next reconnect). -/
theorem C8_malformed_display_isolated (env : IterEnv)
    (d1 d2 pre rest : List RecvResult) (st : MergeState)
    (hpre : (processDisplayEvents pre).2 = DisplayTaskEnd.stillRunning) :
    ((run_zenoh_loop { env with displayEvents := d1 }).sentUpdates
        = (run_zenoh_loop { env with displayEvents := d2 }).sentUpdates)
    ∧ ((run_zenoh_loop { env with displayEvents := d1 }).result
        = (run_zenoh_loop { env with displayEvents := d2 }).result)
    ∧ (process_noise_generator_update_messages
          (run_zenoh_loop { env with displayEvents := d1 }).sentUpdates st
        = process_noise_generator_update_messages
          (run_zenoh_loop { env with displayEvents := d2 }).sentUpdates st)
    ∧ processDisplayEvents (pre ++ RecvResult.msg Payload.badJson :: rest)
        = ((processDisplayEvents pre).1, DisplayTaskEnd.panicked)
    ∧ (∀ e : IterEnv, e.openOk = true → e.subscribeSettingsOk = true →
        e.subscribeDisplayOk = true →
        (run_zenoh_loop e).displayTaskSpawned = true) := by
  have hsettings :
      (run_zenoh_loop { env with displayEvents := d1 }).sentUpdates
        = (run_zenoh_loop { env with displayEvents := d2 }).sentUpdates := by
    unfold run_zenoh_loop
    cases h1 : env.openOk <;> cases h2 : env.subscribeSettingsOk <;>
      cases h3 : env.subscribeDisplayOk <;> simp [h1, h2, h3]
  have hresult :
      (run_zenoh_loop { env with displayEvents := d1 }).result
        = (run_zenoh_loop { env with displayEvents := d2 }).result := by
    unfold run_zenoh_loop
    cases h1 : env.openOk <;> cases h2 : env.subscribeSettingsOk <;>
      cases h3 : env.subscribeDisplayOk <;> simp [h1, h2, h3]
  refine ⟨hsettings, hresult, by rw [hsettings], ?_, ?_⟩
  · rw [processDisplayEvents_append pre _ hpre, processDisplayEvents,
      show decodeDisplayPayload Payload.badJson = none from rfl]
    simp
  · intro e h1 h2 h3
    rw [run_zenoh_loop_subscribed e h1 h2 h3]

theorem C8_malformed_display_isolated_witness :
    ((processDisplayEvents
        [RecvResult.msg (Payload.json (Json.obj [("display_on", Json.bool true)]))]).2
      = DisplayTaskEnd.stillRunning)
    ∧ processDisplayEvents
        ([RecvResult.msg (Payload.json (Json.obj [("display_on", Json.bool true)]))]
          ++ RecvResult.msg Payload.badJson
            :: [RecvResult.msg (Payload.json (Json.obj []))])
      = ((processDisplayEvents
            [RecvResult.msg (Payload.json (Json.obj [("display_on", Json.bool true)]))]).1,
         DisplayTaskEnd.panicked) :=
  ⟨by decide,
   (C8_malformed_display_isolated
     { openOk := true, subscribeSettingsOk := true, subscribeDisplayOk := true,
       settingsEvents := [], displayEvents := [] }
     [] [] [RecvResult.msg (Payload.json (Json.obj [("display_on", Json.bool true)]))]
     [RecvResult.msg (Payload.json (Json.obj []))] initialMergeState
     (by decide)).2.2.2.1⟩

end RobotFace
